import Mathlib

/-! # The CompareTo matcher (matchers/compare_to_matcher.go)

A shallow embedding of `CompareToMatcher.Match` and
`CompareToMatcher.FailureMessage`, and the properties the specification
states about them.

Conventions of the embedding.

* A Go `interface{}` is `Option V`: `none` is the nil interface, `some v` a
  value `v` that carries a dynamic type.  The source's `x == nil` on an
  interface is `Option.isNone`.
* A Go `error` is `Option GoError`: `none` is the nil error.
* A Go call either returns or panics; a call is `Except P α`, where
  `.ok a` is a normal return of `a` and `.error p` a panic carrying `p`.
  Go evaluates the operands of a `return` statement before it returns, so a
  panic inside an operand is the panic of the whole call: that is the bind of
  `Except`.
* `cmp.Equal` and `cmp.Diff` belong to the library `github.com/google/go-cmp`,
  which is not part of the repository.  The matcher is embedded over an
  arbitrary engine `cmp : Engine V O P`; being a Lean function, the engine is
  deterministic and has no effect besides its result.
* For the determinism property the two methods are embedded a second time, as
  calls in a mutable heap (`runMatch`, `runFailureMessage`), where the engine
  and the sibling are arbitrary calls that may read and write the heap.
-/

namespace Gomega

/-! ## Data model -/

/-- A Go `error` value that is not nil; only its text is observable. -/
structure GoError where
  /-- What `Error()` returns. -/
  message : String
deriving DecidableEq, Repr

/-- The two operations of the deep-equality engine that the matcher calls:
`cmp.Equal(x, y, opts...)` and `cmp.Diff(x, y, opts...)`.  `V` is the type of
the non-nil Go values, `O` the type of the option tokens, `P` the type of the
values a panic carries. -/
structure Engine (V O P : Type) where
  /-- The engine function `cmp.Equal`. -/
  Equal : Option V → Option V → List O → Except P Bool
  /-- The engine function `cmp.Diff`. -/
  Diff : Option V → Option V → List O → Except P String

/-- Modelled from the spec: the state of the sibling equals matcher.  Its
declaration is in `matchers/equal.go`, which is not among the sources; the
spec says it "carries the `expected` value in a shared field", and the tests
build it as `EqualMatcher{Expected: ...}`. -/
structure EqualMatcher (V : Type) where
  /-- The value the test author expects; `none` is nil. -/
  Expected : Option V

/-- The struct `CompareToMatcher` of the source: the embedded `EqualMatcher`
and the field `Options cmp.Options` (a slice of option tokens). -/
structure CompareToMatcher (V O : Type) extends EqualMatcher V where
  /-- The option tokens handed to the engine, in order. -/
  Options : List O

/-- What a `Match` method returns: `(success bool, err error)`. -/
abbrev MatchResult : Type := Bool × Option GoError

/-- The type of the sibling's method `(*EqualMatcher).Match`. -/
abbrev SiblingMatch (V P : Type) : Type :=
  EqualMatcher V → Option V → Except P MatchResult

/-! ## The sibling equals matcher -/

/-- The error of the sibling equals matcher for two nil operands; the spec
names it the "refusing to compare nil to nil" error. -/
def refusingToCompare : GoError :=
  ⟨"refusing to compare nil to nil"⟩

/-- Modelled from the spec: the method `Match` of the sibling equals matcher
(`matchers/equal.go`, not among the sources).  The spec: "the sibling equals
matcher treats both sides are the absent value as an error", "in practice: a
refusing to compare nil to nil error, `success = false`".  The spec does not
describe the sibling on other operands; there its result is whatever the
parameter `other` gives for `(actual, Expected)`. -/
def EqualMatcher.Match {V P : Type}
    (other : Option V → Option V → Except P MatchResult)
    (matcher : EqualMatcher V) (actual : Option V) : Except P MatchResult :=
  if actual.isNone && matcher.Expected.isNone then
    pure (false, some refusingToCompare)
  else
    other actual matcher.Expected

/-! ## The matcher -/

/-- The literal that `FailureMessage` puts before the engine's diff. -/
def failureHeader : String := "--- Actual\n+++ Expected\n"

/-- The method `(*CompareToMatcher).Match` of the source:
```go
if actual == nil && matcher.Expected == nil {
    return matcher.EqualMatcher.Match(actual)
}
return cmp.Equal(actual, matcher.Expected, matcher.Options...), nil
```
`sibling` is the method `Match` of the embedded `EqualMatcher`. -/
def CompareToMatcher.Match {V O P : Type} (cmp : Engine V O P)
    (sibling : SiblingMatch V P) (matcher : CompareToMatcher V O)
    (actual : Option V) : Except P MatchResult :=
  if actual.isNone && matcher.Expected.isNone then
    sibling matcher.toEqualMatcher actual
  else do
    let success ← cmp.Equal actual matcher.Expected matcher.Options
    pure (success, none)

/-- The method `(*CompareToMatcher).FailureMessage` of the source:
```go
return "--- Actual\n+++ Expected\n" + cmp.Diff(actual, matcher.Expected, matcher.Options...)
``` -/
def CompareToMatcher.FailureMessage {V O P : Type} (cmp : Engine V O P)
    (matcher : CompareToMatcher V O) (actual : Option V) : Except P String := do
  let diff ← cmp.Diff actual matcher.Expected matcher.Options
  pure ("--- Actual\n+++ Expected\n" ++ diff)

/-! ## The methods as calls in a mutable heap

The receiver is a pointer, `matcher *CompareToMatcher`, the sibling is called
on the pointer to the embedded `EqualMatcher`, and the engine gets the slice
`matcher.Options`, which shares its array with the field.  So in Go a call of
a method, of the engine or of the sibling may read and write the matcher
instance and whatever else it reaches.  Here that is explicit state passing. -/

/-- The mutable state a call runs in: the instance behind the receiver
pointer, and `world`, everything else a call can read or write (globals,
caches, counters). -/
structure Heap (V O W : Type) where
  /-- The instance behind `matcher *CompareToMatcher`. -/
  matcher : CompareToMatcher V O
  /-- The rest of the mutable state. -/
  world : W

/-- A Go call in the heap: from the heap before the call, either a panic or the
values returned together with the heap after the call. -/
abbrev Run (V O P W α : Type) : Type :=
  Heap V O W → Except P (α × Heap V O W)

/-- The engine and the sibling as calls in the heap, each free to read and to
write all of it. -/
structure Collaborators (V O P W : Type) where
  /-- The call `cmp.Equal(x, y, opts...)`. -/
  Equal : Option V → Option V → List O → Run V O P W Bool
  /-- The call `cmp.Diff(x, y, opts...)`. -/
  Diff : Option V → Option V → List O → Run V O P W String
  /-- The call `matcher.EqualMatcher.Match(actual)`; its receiver is the
  embedded equals matcher of the instance in the heap. -/
  EqualMatcherMatch : Option V → Run V O P W MatchResult

/-- The method `(*CompareToMatcher).Match` of the source as a call in the heap:
```go
if actual == nil && matcher.Expected == nil {
    return matcher.EqualMatcher.Match(actual)
}
return cmp.Equal(actual, matcher.Expected, matcher.Options...), nil
```
The body reads `matcher.Expected` and `matcher.Options` and assigns to nothing;
the heap after the call is the one the call it makes leaves. -/
def CompareToMatcher.runMatch {V O P W : Type} (env : Collaborators V O P W)
    (actual : Option V) : Run V O P W MatchResult :=
  fun heap =>
    if actual.isNone && heap.matcher.Expected.isNone then
      env.EqualMatcherMatch actual heap
    else do
      let (success, after) ← env.Equal actual heap.matcher.Expected heap.matcher.Options heap
      pure ((success, none), after)

/-- The method `(*CompareToMatcher).FailureMessage` of the source as a call in
the heap:
```go
return "--- Actual\n+++ Expected\n" + cmp.Diff(actual, matcher.Expected, matcher.Options...)
``` -/
def CompareToMatcher.runFailureMessage {V O P W : Type} (env : Collaborators V O P W)
    (actual : Option V) : Run V O P W String :=
  fun heap => do
    let (diff, after) ← env.Diff actual heap.matcher.Expected heap.matcher.Options heap
    pure ("--- Actual\n+++ Expected\n" ++ diff, after)

/-- The engine and the sibling are deterministic: the outcome of a call of
theirs (the values returned, or the panic) is a function of the arguments of
the call alone (for the sibling: of its receiver and `actual`), the function
being `cmp.Equal`, `cmp.Diff` and `sibling`; and the call leaves the matcher
instance as it found it.  The rest of the world it may change. -/
def Collaborators.Deterministic {V O P W : Type} (env : Collaborators V O P W)
    (cmp : Engine V O P) (sibling : SiblingMatch V P) : Prop :=
  (∀ (x y : Option V) (options : List O) (heap : Heap V O W), ∃ world : W,
      env.Equal x y options heap
        = (fun verdict => (verdict, { heap with world := world })) <$> cmp.Equal x y options)
    ∧ (∀ (x y : Option V) (options : List O) (heap : Heap V O W), ∃ world : W,
      env.Diff x y options heap
        = (fun diff => (diff, { heap with world := world })) <$> cmp.Diff x y options)
    ∧ (∀ (actual : Option V) (heap : Heap V O W), ∃ world : W,
      env.EqualMatcherMatch actual heap
        = (fun result => (result, { heap with world := world }))
            <$> sibling heap.matcher.toEqualMatcher actual)

/-! ## A concrete engine, for evaluating the matcher on concrete inputs

The theorems below hold for every engine.  To evaluate the matcher at a
concrete input an engine is needed; `demoCmp` is a small one over a handful of
Go values.  It behaves as go-cmp documents on the points used here:

* `cmp.Equal(nil, nil)` is `true`;
* values of different dynamic types are unequal, and so are nil and a non-nil
  value;
* two `float64` are compared with `==`;
* a struct with non-exported fields makes the engine panic unless a
  `cmp.AllowUnexported` option for its type is passed;
* an `Ignore` option under a filter that accepts every path makes every
  comparison count as equal.
-/

/-- The dynamic types of the values of `GoValue`. -/
inductive GoType where
  | int
  | int32
  | int64
  | float64
  | string
  | errorString
deriving DecidableEq, Repr

/-- A few Go values that carry a dynamic type. -/
inductive GoValue where
  /-- An `int`. -/
  | int (n : Int)
  /-- An `int32`. -/
  | int32 (n : Int)
  /-- An `int64`. -/
  | int64 (n : Int)
  /-- A `float64`, by its IEEE 754 bits (`5.0` is `0x4014000000000000`). -/
  | float64 (bits : Nat)
  /-- A `string`. -/
  | string (s : String)
  /-- The value `errors.New(s)`: a struct whose only field is not exported. -/
  | errorString (s : String)
deriving DecidableEq, Repr

/-- The dynamic type of a value. -/
def GoValue.typeOf : GoValue → GoType
  | .int _ => .int
  | .int32 _ => .int32
  | .int64 _ => .int64
  | .float64 _ => .float64
  | .string _ => .string
  | .errorString _ => .errorString

/-- Whether the value is a struct with a non-exported field. -/
def GoValue.hasUnexported : GoValue → Bool
  | .errorString _ => true
  | _ => false

/-- The option tokens of the concrete engine. -/
inductive DemoOption where
  /-- The token `cmp.AllowUnexported(x)` for a value `x` of type `t`. -/
  | allowUnexported (t : GoType)
  /-- The token `cmp.FilterPath(func(cmp.Path) bool { return true }, cmp.Ignore())`. -/
  | ignoreEverything
deriving DecidableEq, Repr

/-- What a panic of the concrete engine carries: the reason, not a text. -/
inductive DemoPanic where
  /-- The engine met a non-exported field of a struct of type `t` that no
  option allows it to read. -/
  | unexportedField (t : GoType)
deriving DecidableEq, Repr

/-- Whether the IEEE 754 bits are a NaN: exponent all ones, fraction not zero. -/
def float64IsNaN (bits : Nat) : Bool :=
  (bits / 2 ^ 52) % 2 ^ 11 == 2047 && bits % 2 ^ 52 != 0

/-- The Go `==` of two `float64` given by their bits: a NaN equals nothing,
the two zeros are equal, other values are equal when their bits are. -/
def float64Eq (x y : Nat) : Bool :=
  !float64IsNaN x && !float64IsNaN y
    && ((x % 2 ^ 63 == 0 && y % 2 ^ 63 == 0) || x % 2 ^ 64 == y % 2 ^ 64)

/-- The comparison of two values of the same dynamic type, by kind. -/
def GoValue.sameValue : GoValue → GoValue → Bool
  | .float64 x, .float64 y => float64Eq x y
  | a, b => decide (a = b)

/-- The function `Equal` of the concrete engine. -/
def demoEqual (x y : Option GoValue) (opts : List DemoOption) : Except DemoPanic Bool :=
  if opts.contains .ignoreEverything then
    pure true
  else
    match x, y with
    | none, none => pure true
    | some a, some b =>
      if a.typeOf ≠ b.typeOf then
        pure false
      else if a.hasUnexported && !opts.contains (.allowUnexported a.typeOf) then
        throw (.unexportedField a.typeOf)
      else
        pure (a.sameValue b)
    | _, _ => pure false

/-- The function `Diff` of the concrete engine.  Of the report go-cmp documents
that it is empty exactly when `Equal` is true and that its text is not stable;
the text is not modelled: for unequal operands the report here is only the
two markers. -/
def demoDiff (x y : Option GoValue) (opts : List DemoOption) : Except DemoPanic String := do
  let equal ← demoEqual x y opts
  if equal then
    pure ""
  else
    pure "-\n+\n"

/-- The concrete engine. -/
def demoCmp : Engine GoValue DemoOption DemoPanic where
  Equal := demoEqual
  Diff := demoDiff

/-- The sibling equals matcher used with the concrete engine: the one modelled
from the spec, which outside the nil/nil case (where the matcher never calls
it) reports `(false, nil)`. -/
def demoSibling : SiblingMatch GoValue DemoPanic :=
  EqualMatcher.Match (fun _ _ => pure (false, none))

/-- The concrete engine and sibling as calls in a heap whose world is a
counter of the calls made: each call adds one to it. -/
def demoCollaborators : Collaborators GoValue DemoOption DemoPanic Nat where
  Equal := fun x y opts heap =>
    (fun verdict => (verdict, { heap with world := heap.world + 1 })) <$> demoCmp.Equal x y opts
  Diff := fun x y opts heap =>
    (fun diff => (diff, { heap with world := heap.world + 1 })) <$> demoCmp.Diff x y opts
  EqualMatcherMatch := fun actual heap =>
    (fun result => (result, { heap with world := heap.world + 1 }))
      <$> demoSibling heap.matcher.toEqualMatcher actual

/-- Modelled from the spec: the constructor `CompareTo(expected, options...)`,
which the tests call and which is declared outside the sources: "a constructor
taking `expected` plus zero or more comparison-option tokens". -/
def CompareTo {V O : Type} (expected : Option V) (options : List O) : CompareToMatcher V O :=
  { Expected := expected, Options := options }

/-! ## The two paths of `Match` -/

/-- With both operands nil, `Match` is the sibling's `Match` on the embedded
equals matcher. -/
theorem CompareToMatcher.Match_both_nil {V O P : Type} (cmp : Engine V O P)
    (sibling : SiblingMatch V P) (matcher : CompareToMatcher V O) (actual : Option V)
    (hactual : actual = none) (hexpected : matcher.Expected = none) :
    matcher.Match cmp sibling actual = sibling matcher.toEqualMatcher actual := by
  simp [CompareToMatcher.Match, hactual, hexpected]

/-- With an operand that is not nil, `Match` binds the engine's verdict and
pairs it with the nil error. -/
theorem CompareToMatcher.Match_not_both_nil {V O P : Type} (cmp : Engine V O P)
    (sibling : SiblingMatch V P) (matcher : CompareToMatcher V O) (actual : Option V)
    (h : ¬(actual = none ∧ matcher.Expected = none)) :
    matcher.Match cmp sibling actual =
      (cmp.Equal actual matcher.Expected matcher.Options >>= fun success => pure (success, none)) := by
  have hguard : (actual.isNone && matcher.Expected.isNone) = false := by
    cases hactual : actual <;> cases hexpected : matcher.Expected <;> simp_all
  simp [CompareToMatcher.Match, hguard]

/-- The characters of the header start the characters of the header followed
by any text. -/
theorem failureHeader_starts_message (body : String) :
    failureHeader.data <+: (failureHeader ++ body).data := by
  rw [String.data_append]
  exact List.prefix_append _ _

/-! ## The methods in the heap, against the methods as functions -/

/-- With deterministic collaborators, `Match` as a call in the heap returns
what `Match` as a function gives for the instance in the heap, and leaves that
instance as it was. -/
theorem CompareToMatcher.runMatch_eq {V O P W : Type} (env : Collaborators V O P W)
    (cmp : Engine V O P) (sibling : SiblingMatch V P)
    (hdet : env.Deterministic cmp sibling) (actual : Option V) (heap : Heap V O W) :
    ∃ world : W, CompareToMatcher.runMatch env actual heap
      = (fun result => (result, { heap with world := world }))
          <$> heap.matcher.Match cmp sibling actual := by
  by_cases hguard : (actual.isNone && heap.matcher.Expected.isNone) = true
  · obtain ⟨world, hworld⟩ := hdet.2.2 actual heap
    refine ⟨world, ?_⟩
    simp only [CompareToMatcher.runMatch, CompareToMatcher.Match, hguard, if_true]
    exact hworld
  · obtain ⟨world, hworld⟩ := hdet.1 actual heap.matcher.Expected heap.matcher.Options heap
    refine ⟨world, ?_⟩
    simp only [CompareToMatcher.runMatch, CompareToMatcher.Match, hguard, hworld]
    cases cmp.Equal actual heap.matcher.Expected heap.matcher.Options <;> rfl

/-- With a deterministic engine, `FailureMessage` as a call in the heap returns
what `FailureMessage` as a function gives for the instance in the heap, and
leaves that instance as it was. -/
theorem CompareToMatcher.runFailureMessage_eq {V O P W : Type}
    (env : Collaborators V O P W) (cmp : Engine V O P) (sibling : SiblingMatch V P)
    (hdet : env.Deterministic cmp sibling) (actual : Option V) (heap : Heap V O W) :
    ∃ world : W, CompareToMatcher.runFailureMessage env actual heap
      = (fun text => (text, { heap with world := world }))
          <$> heap.matcher.FailureMessage cmp actual := by
  obtain ⟨world, hworld⟩ := hdet.2.1 actual heap.matcher.Expected heap.matcher.Options heap
  refine ⟨world, ?_⟩
  simp only [CompareToMatcher.runFailureMessage, CompareToMatcher.FailureMessage, hworld]
  cases cmp.Diff actual heap.matcher.Expected heap.matcher.Options <;> rfl

/-- A call that behaves as a function of the matcher instance and leaves the
instance alone: it returns the same when made again, and its outcome is the
same in every heap that holds that instance. -/
theorem Run.repeatable {V O P W α : Type} (pureOutcome : CompareToMatcher V O → Except P α)
    (run : Run V O P W α)
    (hrun : ∀ heap : Heap V O W, ∃ world : W,
      run heap = (fun a => (a, { heap with world := world })) <$> pureOutcome heap.matcher)
    (heap : Heap V O W) :
    (∀ (a : α) (after : Heap V O W), run heap = .ok (a, after) →
        after.matcher = heap.matcher ∧ ∃ again : Heap V O W, run after = .ok (a, again))
      ∧ ∀ heap2 : Heap V O W, heap2.matcher = heap.matcher →
          Prod.fst <$> run heap2 = Prod.fst <$> run heap := by
  constructor
  · intro a after hcall
    obtain ⟨world, hworld⟩ := hrun heap
    rw [hworld] at hcall
    cases hpure : pureOutcome heap.matcher with
    | error p =>
      rw [hpure] at hcall
      cases hcall
    | ok b =>
      rw [hpure] at hcall
      cases hcall
      refine ⟨rfl, ?_⟩
      obtain ⟨world2, hworld2⟩ := hrun { heap with world := world }
      refine ⟨{ heap with world := world2 }, ?_⟩
      rw [hworld2]
      simp only [hpure]
      rfl
  · intro heap2 hsame
    obtain ⟨world, hworld⟩ := hrun heap
    obtain ⟨world2, hworld2⟩ := hrun heap2
    rw [hworld, hworld2, hsame]
    cases pureOutcome heap.matcher <;> rfl

/-- The concrete collaborators are deterministic: they are the concrete engine
and sibling, and touch only the counter. -/
theorem demoCollaborators_deterministic :
    demoCollaborators.Deterministic demoCmp demoSibling :=
  ⟨fun _ _ _ heap => ⟨heap.world + 1, rfl⟩, fun _ _ _ heap => ⟨heap.world + 1, rfl⟩,
    fun _ heap => ⟨heap.world + 1, rfl⟩⟩

/-! ## The claims -/

/-- C1: for every options list (and every engine), `Match(nil)` on a matcher
whose `Expected` is nil returns `success = false` together with a non-nil
error, the sibling's "refusing to compare nil to nil"; the engine takes no part
in the result. -/
theorem Match_nil_nil_is_refused {V O P : Type} (cmp : Engine V O P)
    (other : Option V → Option V → Except P MatchResult) (options : List O) :
    (CompareTo none options).Match cmp (EqualMatcher.Match other) none
        = .ok (false, some refusingToCompare)
      ∧ (some refusingToCompare : Option GoError) ≠ none := by
  constructor
  · rfl
  · simp

/-- C2: when `actual` and `Expected` are not both nil, `Match(actual)` is
`(cmp.Equal(actual, Expected, options...), nil)`: the engine gets `actual`
first, `Expected` second and the whole option list in order; its verdict is
the verdict returned and the error is nil.  (Should the engine panic, so does
`Match`.) -/
theorem Match_is_engine_verdict {V O P : Type} (cmp : Engine V O P)
    (sibling : SiblingMatch V P) (actual Expected : Option V) (options : List O)
    (h : ¬(actual = none ∧ Expected = none)) :
    match cmp.Equal actual Expected options with
    | .ok verdict => (CompareTo Expected options).Match cmp sibling actual = .ok (verdict, none)
    | .error p => (CompareTo Expected options).Match cmp sibling actual = .error p := by
  have hpath := CompareToMatcher.Match_not_both_nil cmp sibling (CompareTo Expected options) actual h
  simp only [CompareTo] at hpath ⊢
  cases hverdict : cmp.Equal actual Expected options with
  | ok verdict => simp only [hpath, hverdict]; rfl
  | error p => simp only [hpath, hverdict]; rfl

/-- Witness of C2 at the test "unless unexported fields are allowed": two
`errors.New("foo")` under `cmp.AllowUnexported` match with a nil error. -/
theorem Match_is_engine_verdict_witness :
    (CompareTo (some (GoValue.errorString "foo")) [DemoOption.allowUnexported .errorString]).Match
        demoCmp demoSibling (some (GoValue.errorString "foo")) = .ok (true, none) :=
  Match_is_engine_verdict demoCmp demoSibling (some (GoValue.errorString "foo"))
    (some (GoValue.errorString "foo")) [DemoOption.allowUnexported .errorString] (by simp)

/-- C3: for every `actual`, `Expected` and options list, both nil included,
`FailureMessage(actual)` is the literal `"--- Actual\n+++ Expected\n"`
followed by `cmp.Diff(actual, Expected, options...)`, unchanged, with `actual`
the first and `Expected` the second argument of the engine; so the message
begins with exactly that header.  (Should the engine panic, so does
`FailureMessage`.) -/
theorem FailureMessage_is_header_then_diff {V O P : Type} (cmp : Engine V O P)
    (actual Expected : Option V) (options : List O) :
    match cmp.Diff actual Expected options with
    | .ok diff =>
        (CompareTo Expected options).FailureMessage cmp actual
            = .ok ("--- Actual\n+++ Expected\n" ++ diff)
          ∧ "--- Actual\n+++ Expected\n".data <+: ("--- Actual\n+++ Expected\n" ++ diff).data
    | .error p => (CompareTo Expected options).FailureMessage cmp actual = .error p := by
  cases hdiff : cmp.Diff actual Expected options with
  | ok diff =>
    refine ⟨?_, failureHeader_starts_message diff⟩
    simp only [CompareToMatcher.FailureMessage, CompareTo, hdiff]
    rfl
  | error p =>
    simp only [CompareToMatcher.FailureMessage, CompareTo, hdiff]
    rfl

/-- C4, as stated, fails: with both operands nil and the option list
`[cmp.AllowUnexported(...)]`, the engine's `Equal(nil, nil, t)` is `true`
while `Match(nil)` returns the sibling's verdict `false` (with its error). -/
theorem option_passthrough_fails_at_nil_nil :
    demoCmp.Equal none none [DemoOption.allowUnexported .errorString] = .ok true
      ∧ (CompareTo none [DemoOption.allowUnexported .errorString]).Match demoCmp demoSibling none
          = .ok (false, some refusingToCompare)
      ∧ Prod.fst <$> (CompareTo none [DemoOption.allowUnexported .errorString]).Match
            demoCmp demoSibling none
          ≠ demoCmp.Equal none none [DemoOption.allowUnexported .errorString] := by
  refine ⟨rfl, rfl, ?_⟩
  intro h
  cases h

/-- C4, amended: option passthrough for every option token `t` and every pair
`(a, b)` that is not nil/nil: `Match(a)` with `Expected = b` and
`Options = [t]` returns the boolean verdict of `cmp.Equal(a, b, t)`. -/
theorem option_passthrough_unless_nil_nil {V O P : Type} (cmp : Engine V O P)
    (sibling : SiblingMatch V P) (t : O) (a b : Option V)
    (h : ¬(a = none ∧ b = none)) :
    Prod.fst <$> (CompareTo b [t]).Match cmp sibling a = cmp.Equal a b [t] := by
  have hpath := CompareToMatcher.Match_not_both_nil cmp sibling (CompareTo b [t]) a h
  simp only [CompareTo] at hpath ⊢
  rw [hpath]
  cases cmp.Equal a b [t] <;> rfl

/-- Witness of the amended C4 at the test "unless unexported fields are
allowed": the verdict on `errors.New("foo")` against `errors.New("bar")` under
`cmp.AllowUnexported` is the engine's, `false`. -/
theorem option_passthrough_unless_nil_nil_witness :
    Prod.fst <$> (CompareTo (some (GoValue.errorString "bar"))
        [DemoOption.allowUnexported .errorString]).Match demoCmp demoSibling
        (some (GoValue.errorString "foo"))
      = demoCmp.Equal (some (GoValue.errorString "foo")) (some (GoValue.errorString "bar"))
          [DemoOption.allowUnexported .errorString]
    ∧ demoCmp.Equal (some (GoValue.errorString "foo")) (some (GoValue.errorString "bar"))
          [DemoOption.allowUnexported .errorString] = .ok false :=
  ⟨option_passthrough_unless_nil_nil demoCmp demoSibling (DemoOption.allowUnexported .errorString)
      (some (GoValue.errorString "foo")) (some (GoValue.errorString "bar")) (by simp),
    rfl⟩

/-- C5, as stated, fails at `v = nil`: the engine compares nil with nil
without options and `Equal(nil, nil)` is `true`, yet `Match(nil)` with
`Expected = nil` and no options returns `(false, err)` with a non-nil error,
not `(true, nil)`. -/
theorem reflexivity_fails_at_nil :
    demoCmp.Equal none none [] = .ok true
      ∧ (CompareTo none []).Match demoCmp demoSibling none = .ok (false, some refusingToCompare)
      ∧ (CompareTo none []).Match demoCmp demoSibling none ≠ .ok (true, none) := by
  refine ⟨rfl, rfl, ?_⟩
  intro h
  cases h

/-- C5, amended: reflexivity on non-nil values: for every non-nil value `v`
with `cmp.Equal(v, v)` true, `Match(v)` on a matcher with `Expected = v` and no
options returns `(true, nil)`. -/
theorem Match_reflexive_on_non_nil {V O P : Type} (cmp : Engine V O P)
    (sibling : SiblingMatch V P) (v : V)
    (hequal : cmp.Equal (some v) (some v) [] = .ok true) :
    (CompareTo (some v) []).Match cmp sibling (some v) = .ok (true, none) := by
  have hpath := CompareToMatcher.Match_not_both_nil cmp sibling (CompareTo (some v) []) (some v)
    (by simp)
  simp only [CompareTo] at hpath ⊢
  rw [hpath, hequal]
  rfl

/-- Witness of the amended C5 at the test `Expect("5").Should(CompareTo("5"))`. -/
theorem Match_reflexive_on_non_nil_witness :
    demoCmp.Equal (some (GoValue.string "5")) (some (GoValue.string "5")) [] = .ok true
      ∧ (CompareTo (some (GoValue.string "5")) []).Match demoCmp demoSibling
          (some (GoValue.string "5")) = .ok (true, none) :=
  ⟨rfl, Match_reflexive_on_non_nil demoCmp demoSibling (GoValue.string "5") rfl⟩

/-- C6: whenever `actual` and `Expected` are both nil, `Match(actual)` is,
unchanged, what the embedded equals matcher's `Match(actual)` gives for the
same `Expected`, whatever that is and whatever the options are; the engine has
no part in it: the result is the same under every other engine. -/
theorem Match_nil_nil_delegates {V O P : Type} (cmp : Engine V O P)
    (sibling : SiblingMatch V P) (matcher : CompareToMatcher V O) (actual : Option V)
    (hactual : actual = none) (hexpected : matcher.Expected = none) :
    matcher.Match cmp sibling actual = sibling ⟨matcher.Expected⟩ actual
      ∧ ∀ cmp2 : Engine V O P,
          matcher.Match cmp2 sibling actual = matcher.Match cmp sibling actual := by
  refine ⟨CompareToMatcher.Match_both_nil cmp sibling matcher actual hactual hexpected, ?_⟩
  intro cmp2
  rw [CompareToMatcher.Match_both_nil cmp sibling matcher actual hactual hexpected,
    CompareToMatcher.Match_both_nil cmp2 sibling matcher actual hactual hexpected]

/-- Witness of C6: with both sides nil the result is the sibling's refusal,
also under an option list with which the engine would report equality. -/
theorem Match_nil_nil_delegates_witness :
    (CompareTo none [DemoOption.ignoreEverything]).Match demoCmp demoSibling none
        = demoSibling ⟨none⟩ none
      ∧ ∀ cmp2 : Engine GoValue DemoOption DemoPanic,
          (CompareTo none [DemoOption.ignoreEverything]).Match cmp2 demoSibling none
            = (CompareTo none [DemoOption.ignoreEverything]).Match demoCmp demoSibling none :=
  Match_nil_nil_delegates demoCmp demoSibling (CompareTo none [DemoOption.ignoreEverything]) none
    rfl rfl

/-- C7, as stated, fails: with `Expected = 5` and an option list that ignores
every comparison, `Match(nil)` returns `(true, nil)`, and so does `Match(5)` on
a matcher with `Expected = nil`: one side being nil can be a match. -/
theorem one_side_nil_can_match :
    (CompareTo (some (GoValue.int 5)) [DemoOption.ignoreEverything]).Match demoCmp demoSibling none
        = .ok (true, none)
      ∧ (CompareTo none [DemoOption.ignoreEverything]).Match demoCmp demoSibling
          (some (GoValue.int 5)) = .ok (true, none)
      ∧ (CompareTo (some (GoValue.int 5)) [DemoOption.ignoreEverything]).Match demoCmp
          demoSibling none ≠ .ok (false, none) := by
  refine ⟨rfl, rfl, ?_⟩
  intro h
  cases h

/-- C7, amended: for every non-nil value `v` and every options list,
`Match(nil)` on a matcher with `Expected = v` returns
`(cmp.Equal(nil, v, options...), nil)` and `Match(v)` on a matcher with
`Expected = nil` returns `(cmp.Equal(v, nil, options...), nil)`, panicking
exactly when the engine panics and with its panic: exactly one side being nil
is never an error, and it is the mismatch `(false, nil)` whenever the engine
reports the pair unequal. -/
theorem Match_one_side_nil {V O P : Type} (cmp : Engine V O P)
    (sibling : SiblingMatch V P) (v : V) (options : List O) :
    (match cmp.Equal none (some v) options with
      | .ok verdict =>
          (CompareTo (some v) options).Match cmp sibling none = .ok (verdict, none)
      | .error p => (CompareTo (some v) options).Match cmp sibling none = .error p)
    ∧ (match cmp.Equal (some v) none options with
      | .ok verdict =>
          (CompareTo none options).Match cmp sibling (some v) = .ok (verdict, none)
      | .error p => (CompareTo none options).Match cmp sibling (some v) = .error p)
    ∧ (∀ (success : Bool) (err : Option GoError),
        (CompareTo (some v) options).Match cmp sibling none = .ok (success, err) → err = none)
    ∧ (∀ (success : Bool) (err : Option GoError),
        (CompareTo none options).Match cmp sibling (some v) = .ok (success, err) → err = none) := by
  have hleft := CompareToMatcher.Match_not_both_nil cmp sibling (CompareTo (some v) options) none
    (by simp [CompareTo])
  have hright := CompareToMatcher.Match_not_both_nil cmp sibling (CompareTo none options) (some v)
    (by simp)
  simp only [CompareTo] at hleft hright ⊢
  rw [hleft, hright]
  refine ⟨?_, ?_, ?_, ?_⟩
  · cases cmp.Equal none (some v) options <;> rfl
  · cases cmp.Equal (some v) none options <;> rfl
  · intro success err hreturn
    cases hverdict : cmp.Equal none (some v) options with
    | ok verdict =>
      rw [hverdict] at hreturn
      cases hreturn
      rfl
    | error p =>
      rw [hverdict] at hreturn
      cases hreturn
  · intro success err hreturn
    cases hverdict : cmp.Equal (some v) none options with
    | ok verdict =>
      rw [hverdict] at hreturn
      cases hreturn
      rfl
    | error p =>
      rw [hverdict] at hreturn
      cases hreturn

/-- Witness of the amended C7: without options, nil against `5` and `5`
against nil are mismatches with a nil error. -/
theorem Match_one_side_nil_witness :
    (CompareTo (some (GoValue.int 5)) []).Match demoCmp demoSibling none = .ok (false, none)
      ∧ (CompareTo none []).Match demoCmp demoSibling (some (GoValue.int 5)) = .ok (false, none) :=
  ⟨(Match_one_side_nil demoCmp demoSibling (GoValue.int 5) []).1,
    (Match_one_side_nil demoCmp demoSibling (GoValue.int 5) []).2.1⟩

/-- C8: with a panic of the engine modelled as the outcome `.error p` of
`cmp.Equal`: whenever `actual` and `Expected` are not both nil and
`cmp.Equal(actual, Expected, options...)` panics with `p`, `Match(actual)`
panics with the same `p`; it returns no `(false, nil)`, no `(false, err)` and
no other pair. -/
theorem Match_propagates_engine_panic {V O P : Type} (cmp : Engine V O P)
    (sibling : SiblingMatch V P) (actual Expected : Option V) (options : List O) (p : P)
    (h : ¬(actual = none ∧ Expected = none))
    (hpanic : cmp.Equal actual Expected options = .error p) :
    (CompareTo Expected options).Match cmp sibling actual = .error p
      ∧ ∀ result : MatchResult,
          (CompareTo Expected options).Match cmp sibling actual ≠ .ok result := by
  have hpath := CompareToMatcher.Match_not_both_nil cmp sibling (CompareTo Expected options) actual h
  simp only [CompareTo] at hpath ⊢
  have hmatch : CompareToMatcher.Match cmp sibling
      { Expected := Expected, Options := options } actual = .error p := by
    rw [hpath, hpanic]
    rfl
  refine ⟨hmatch, ?_⟩
  intro result hresult
  rw [hmatch] at hresult
  cases hresult

/-- Witness of C8 at the test "should panic on unexported fields": two
`errors.New("foo")` without options. -/
theorem Match_propagates_engine_panic_witness :
    demoCmp.Equal (some (GoValue.errorString "foo")) (some (GoValue.errorString "foo")) []
        = .error (DemoPanic.unexportedField .errorString)
      ∧ (CompareTo (some (GoValue.errorString "foo")) []).Match demoCmp demoSibling
          (some (GoValue.errorString "foo")) = .error (DemoPanic.unexportedField .errorString) :=
  ⟨rfl, (Match_propagates_engine_panic demoCmp demoSibling (some (GoValue.errorString "foo"))
      (some (GoValue.errorString "foo")) [] (DemoPanic.unexportedField .errorString) (by simp) rfl).1⟩

/-- C9: type strictness: for every pair `(a, b)` of values of distinct runtime
types that the engine does not bridge (its verdict on them is `false`),
`Match(a)` on a matcher with `Expected = b` returns `(false, nil)`; the matcher
adds no conversion of its own, whatever the values print as or project to. -/
theorem Match_type_strict {V O P T : Type} (typeOf : V → T) (cmp : Engine V O P)
    (sibling : SiblingMatch V P) (a b : V) (options : List O)
    (_htypes : typeOf a ≠ typeOf b)
    (hunbridged : cmp.Equal (some a) (some b) options = .ok false) :
    (CompareTo (some b) options).Match cmp sibling (some a) = .ok (false, none) := by
  have hpath := CompareToMatcher.Match_not_both_nil cmp sibling (CompareTo (some b) options)
    (some a) (by simp)
  simp only [CompareTo] at hpath ⊢
  rw [hpath, hunbridged]
  rfl

/-- Witness of C9 at the tests `Expect(5).ShouldNot(CompareTo("5"))` and
`Expect(5).ShouldNot(CompareTo(5.0))`: `int 5` against the string `"5"` and
against the `float64` `5.0`. -/
theorem Match_type_strict_witness :
    (CompareTo (some (GoValue.string "5")) []).Match demoCmp demoSibling (some (GoValue.int 5))
        = .ok (false, none)
      ∧ (CompareTo (some (GoValue.float64 0x4014000000000000)) []).Match demoCmp demoSibling
          (some (GoValue.int 5)) = .ok (false, none) :=
  ⟨Match_type_strict GoValue.typeOf demoCmp demoSibling (GoValue.int 5) (GoValue.string "5") []
      (by decide) rfl,
    Match_type_strict GoValue.typeOf demoCmp demoSibling (GoValue.int 5)
      (GoValue.float64 0x4014000000000000) [] (by decide) rfl⟩

/-- C10: determinism, with the methods as calls in the mutable heap and a
deterministic engine and sibling: a call of `Match(actual)` that returns leaves
`Expected` and `Options` of the instance as they were, and `Match(actual)` made
again returns the same `(success, err)`; likewise `FailureMessage(actual)` and
its string; and the outcome of either call (values returned, or panic) is a
function of `(actual, Expected, Options)` alone: it is the same in every heap
whose instance has the same `Expected` and `Options`. -/
theorem methods_deterministic {V O P W : Type} (env : Collaborators V O P W)
    (cmp : Engine V O P) (sibling : SiblingMatch V P)
    (hdet : env.Deterministic cmp sibling) (heap : Heap V O W) (actual : Option V) :
    (∀ (result : MatchResult) (after : Heap V O W),
        CompareToMatcher.runMatch env actual heap = .ok (result, after) →
          after.matcher.Expected = heap.matcher.Expected
            ∧ after.matcher.Options = heap.matcher.Options
            ∧ ∃ again : Heap V O W,
                CompareToMatcher.runMatch env actual after = .ok (result, again))
      ∧ (∀ (text : String) (after : Heap V O W),
        CompareToMatcher.runFailureMessage env actual heap = .ok (text, after) →
          after.matcher.Expected = heap.matcher.Expected
            ∧ after.matcher.Options = heap.matcher.Options
            ∧ ∃ again : Heap V O W,
                CompareToMatcher.runFailureMessage env actual after = .ok (text, again))
      ∧ ∀ heap2 : Heap V O W,
          heap2.matcher.Expected = heap.matcher.Expected →
          heap2.matcher.Options = heap.matcher.Options →
            Prod.fst <$> CompareToMatcher.runMatch env actual heap2
                = Prod.fst <$> CompareToMatcher.runMatch env actual heap
              ∧ Prod.fst <$> CompareToMatcher.runFailureMessage env actual heap2
                = Prod.fst <$> CompareToMatcher.runFailureMessage env actual heap := by
  have hmatch := Run.repeatable (fun matcher => matcher.Match cmp sibling actual)
    (CompareToMatcher.runMatch env actual)
    (CompareToMatcher.runMatch_eq env cmp sibling hdet actual) heap
  have hmessage := Run.repeatable (fun matcher => matcher.FailureMessage cmp actual)
    (CompareToMatcher.runFailureMessage env actual)
    (CompareToMatcher.runFailureMessage_eq env cmp sibling hdet actual) heap
  refine ⟨?_, ?_, ?_⟩
  · intro result after hcall
    obtain ⟨hsame, again, hagain⟩ := hmatch.1 result after hcall
    exact ⟨by rw [hsame], by rw [hsame], again, hagain⟩
  · intro text after hcall
    obtain ⟨hsame, again, hagain⟩ := hmessage.1 text after hcall
    exact ⟨by rw [hsame], by rw [hsame], again, hagain⟩
  · intro heap2 hexpected hoptions
    have hsame : heap2.matcher = heap.matcher := by
      cases h2 : heap2.matcher with
      | mk equal2 options2 =>
        cases h1 : heap.matcher with
        | mk equal1 options1 =>
          cases equal2
          cases equal1
          simp only [h1, h2] at hexpected hoptions
          subst hexpected hoptions
          rfl
    exact ⟨hmatch.2 heap2 hsame, hmessage.2 heap2 hsame⟩

/-- Witness of C10 at the test "shows differing types": `Expected` is
`int64(5)`, `actual` is `int32(5)`.  `Match` made twice returns `(false, nil)`
twice while the counter of the world goes from 0 to 2, and the claim holds in
that heap. -/
theorem methods_deterministic_witness :
    CompareToMatcher.runMatch demoCollaborators (some (GoValue.int32 5))
        ⟨CompareTo (some (GoValue.int64 5)) [], 0⟩
        = .ok ((false, none), ⟨CompareTo (some (GoValue.int64 5)) [], 1⟩)
      ∧ CompareToMatcher.runMatch demoCollaborators (some (GoValue.int32 5))
        ⟨CompareTo (some (GoValue.int64 5)) [], 1⟩
        = .ok ((false, none), ⟨CompareTo (some (GoValue.int64 5)) [], 2⟩)
      ∧ ∀ heap2 : Heap GoValue DemoOption Nat,
          heap2.matcher.Expected = some (GoValue.int64 5) →
          heap2.matcher.Options = [] →
            Prod.fst <$> CompareToMatcher.runMatch demoCollaborators (some (GoValue.int32 5)) heap2
                = Prod.fst <$> CompareToMatcher.runMatch demoCollaborators
                    (some (GoValue.int32 5)) ⟨CompareTo (some (GoValue.int64 5)) [], 0⟩
              ∧ Prod.fst <$> CompareToMatcher.runFailureMessage demoCollaborators
                    (some (GoValue.int32 5)) heap2
                = Prod.fst <$> CompareToMatcher.runFailureMessage demoCollaborators
                    (some (GoValue.int32 5)) ⟨CompareTo (some (GoValue.int64 5)) [], 0⟩ :=
  ⟨rfl, rfl,
    (methods_deterministic demoCollaborators demoCmp demoSibling demoCollaborators_deterministic
      ⟨CompareTo (some (GoValue.int64 5)) [], 0⟩ (some (GoValue.int32 5))).2.2⟩

end Gomega
